import Mathlib

/-!
Shallow embedding of the Frontline pricing calculator
(src/src/FrontlinePricingCalculator.tsx and the variant in src/unnamed/part_001).
JS numbers are modelled as rationals; JS Math.round is round-half-up.
-/

namespace Frontline

/-- JS Math.round: rounds half toward positive infinity. -/
def jround (q : ℚ) : ℤ := (q + 1/2).floor

/-- The executable Rat.floor agrees with the floor of the order structure. -/
theorem ratFloor_eq_floor (q : ℚ) : q.floor = ⌊q⌋ := by
  rw [Rat.floor_def', Rat.floor_def]

/-- jround is the floor of the shifted argument. -/
theorem jround_eq (q : ℚ) : jround q = ⌊q + 1/2⌋ := ratFloor_eq_floor _

/-- Evaluation rule for jround at a concrete argument. -/
theorem jround_eq_of {q : ℚ} {n : ℤ} (h1 : (n : ℚ) ≤ q + 1/2) (h2 : q + 1/2 < (n : ℚ) + 1) :
    jround q = n := by
  rw [jround_eq]
  exact Int.floor_eq_iff.mpr ⟨h1, h2⟩

/-- clamp(v, min, max) = Math.max(min, Math.min(max, v)) from the source. -/
def clamp (v lo hi : ℚ) : ℚ := max lo (min hi v)

/-- Product family: source strings "MP3" and "LV2". -/
inductive Family
  | MP3
  | LV2
  deriving DecidableEq

/-- System size tier S/M/L. -/
inductive Size
  | S
  | M
  | L
  deriving DecidableEq

/-- Foam sizes: S/M/L plus the XL manual override. -/
inductive FoamSize
  | S
  | M
  | L
  | XL
  deriving DecidableEq

/-- Inclusion of a system size into the foam size range. -/
def FoamSize.ofSize : Size → FoamSize
  | .S => .S
  | .M => .M
  | .L => .L

/-- The lastEdited tag: "cost" | "gm" | "price". -/
inductive LastEdited
  | cost
  | gm
  | price
  deriving DecidableEq

/-- Vertical selector keys: "res" | "prod" | "ci" (the VERTICALS array). -/
inductive VKey
  | res
  | prod
  | ci
  deriving DecidableEq

/-- Multiplier column of the VERTICALS array. -/
def VKey.multiplier : VKey → ℚ
  | .res => 1
  | .prod => 9/10
  | .ci => 95/100

/-- One row of the ASE adder-increment table: foam/booster/pool/solar. -/
structure AseRow where
  foam : ℚ
  booster : ℚ
  pool : ℚ
  solar : ℚ
  deriving DecidableEq

/-- The editable adder cost tables (the adderCost state record). -/
structure AdderCostTable where
  foam : FoamSize → ℚ
  booster : Family → Size → ℚ
  pool : Family → Size → ℚ
  solarFlat : ℚ
  upsFlat : ℚ

/-- ASE_BASE constant table. -/
def ASE_BASE : Family → Size → ℚ
  | .MP3, .S => 795
  | .MP3, .M => 895
  | .MP3, .L => 995
  | .LV2, .S => 995
  | .LV2, .M => 1095
  | .LV2, .L => 1195

/-- initialASEAdders constant table. -/
def initialASEAdders : Family → Size → AseRow
  | .MP3, .S => ⟨99, 149, 129, 79⟩
  | .MP3, .M => ⟨119, 169, 149, 89⟩
  | .MP3, .L => ⟨139, 189, 169, 99⟩
  | .LV2, .S => ⟨149, 189, 159, 89⟩
  | .LV2, .M => ⟨169, 199, 179, 99⟩
  | .LV2, .L => ⟨189, 219, 199, 109⟩

/-- SUB_BASE constant table. -/
def SUB_BASE : Family → ℚ
  | .MP3 => 89
  | .LV2 => 129

/-- Default value of the adderCost state. -/
def initialAdderCost : AdderCostTable where
  foam := fun s => match s with
    | .S => 700
    | .M => 1000
    | .L => 1400
    | .XL => 1800
  booster := fun f s => match f, s with
    | .MP3, .S => 1100
    | .MP3, .M => 1650
    | .MP3, .L => 2300
    | .LV2, .S => 1400
    | .LV2, .M => 2100
    | .LV2, .L => 2900
  pool := fun f s => match f, s with
    | .MP3, .S => 450
    | .MP3, .M => 750
    | .MP3, .L => 1050
    | .LV2, .S => 600
    | .LV2, .M => 900
    | .LV2, .L => 1200
  solarFlat := 700
  upsFlat := 250

/-- The raw React state of the component: one field per useState hook
feeding the derived pricing computation. -/
structure CalcState where
  family : Family
  size : Size
  systemCost : ℚ
  targetGM : ℚ
  systemPrice : ℚ
  lastEdited : LastEdited
  verticalKey : VKey
  isHighUsage : Bool
  annualBilling : Bool
  includeFoam : Bool
  includeBooster : Bool
  includePool : Bool
  includeSolar : Bool
  includeUPS : Bool
  foamSize : Option FoamSize
  boosterSize : Option Size
  poolSize : Option Size
  adderGM : ℚ
  adderCost : AdderCostTable
  aseAdders : Family → Size → AseRow

/-- The reconciled triad returned by recalc. -/
structure Triad where
  price : ℚ
  cost : ℚ
  gm : ℚ
  deriving DecidableEq

/-- The recalc useMemo: two-way cost/GM/price coupling keyed on lastEdited. -/
def recalc (s : CalcState) : Triad :=
  let price := s.systemPrice
  let cost := s.systemCost
  let gm := clamp s.targetGM (5/100) (9/10)
  match s.lastEdited with
  | .price => { price := price, cost := cost,
                gm := clamp ((price - cost) / max price 1) 0 (95/100) }
  | .gm => { price := (jround (cost / max (1 - gm) (1/100)) : ℚ), cost := cost, gm := gm }
  | .cost => { price := (jround (cost / max (1 - gm) (1/100)) : ℚ), cost := cost, gm := gm }

/-- priceFromGM helper: Math.round(cost / Math.max(1 - gm, 0.01)). -/
def priceFromGM (cost gm : ℚ) : ℚ := (jround (cost / max (1 - gm) (1/100)) : ℚ)

/-- foamActiveSize = foamSize ?? systemSizeKey. -/
def foamActiveSize (s : CalcState) : FoamSize := s.foamSize.getD (FoamSize.ofSize s.size)

/-- boosterActiveSize = boosterSize ?? systemSizeKey. -/
def boosterActiveSize (s : CalcState) : Size := s.boosterSize.getD s.size

/-- poolActiveSize = poolSize ?? systemSizeKey. -/
def poolActiveSize (s : CalcState) : Size := s.poolSize.getD s.size

/-- foamCost = includeFoam ? adderCost.foam[foamActiveSize] : 0. -/
def foamCost (s : CalcState) : ℚ :=
  if s.includeFoam then s.adderCost.foam (foamActiveSize s) else 0

/-- boosterCost = includeBooster ? adderCost.booster[family][boosterActiveSize] : 0. -/
def boosterCost (s : CalcState) : ℚ :=
  if s.includeBooster then s.adderCost.booster s.family (boosterActiveSize s) else 0

/-- poolCost = includePool ? adderCost.pool[family][poolActiveSize] : 0. -/
def poolCost (s : CalcState) : ℚ :=
  if s.includePool then s.adderCost.pool s.family (poolActiveSize s) else 0

/-- solarCost = includeSolar ? adderCost.solar.flat : 0. -/
def solarCost (s : CalcState) : ℚ :=
  if s.includeSolar then s.adderCost.solarFlat else 0

/-- upsCost = includeUPS ? adderCost.ups.flat : 0. -/
def upsCost (s : CalcState) : ℚ :=
  if s.includeUPS then s.adderCost.upsFlat else 0

/-- foamPrice = includeFoam ? priceFromGM(foamCost, adderGM) : 0. -/
def foamPrice (s : CalcState) : ℚ :=
  if s.includeFoam then priceFromGM (foamCost s) s.adderGM else 0

/-- boosterPrice = includeBooster ? priceFromGM(boosterCost, adderGM) : 0. -/
def boosterPrice (s : CalcState) : ℚ :=
  if s.includeBooster then priceFromGM (boosterCost s) s.adderGM else 0

/-- poolPrice = includePool ? priceFromGM(poolCost, adderGM) : 0. -/
def poolPrice (s : CalcState) : ℚ :=
  if s.includePool then priceFromGM (poolCost s) s.adderGM else 0

/-- solarPrice = includeSolar ? priceFromGM(solarCost, adderGM) : 0. -/
def solarPrice (s : CalcState) : ℚ :=
  if s.includeSolar then priceFromGM (solarCost s) s.adderGM else 0

/-- upsPrice = includeUPS ? priceFromGM(upsCost, adderGM) : 0. -/
def upsPrice (s : CalcState) : ℚ :=
  if s.includeUPS then priceFromGM (upsCost s) s.adderGM else 0

/-- addersTotal = foamPrice + boosterPrice + poolPrice + solarPrice + upsPrice. -/
def addersTotal (s : CalcState) : ℚ :=
  foamPrice s + boosterPrice s + poolPrice s + solarPrice s + upsPrice s

/-- aseBase = ASE_BASE[family][systemSizeKey]. -/
def aseBase (s : CalcState) : ℚ := ASE_BASE s.family s.size

/-- aseAddersSum: enabled hardware adders among foam/booster/pool/solar. -/
def aseAddersSum (s : CalcState) : ℚ :=
  (if s.includeFoam then (s.aseAdders s.family s.size).foam else 0) +
  (if s.includeBooster then (s.aseAdders s.family s.size).booster else 0) +
  (if s.includePool then (s.aseAdders s.family s.size).pool else 0) +
  (if s.includeSolar then (s.aseAdders s.family s.size).solar else 0)

/-- aseAnnual = aseBase + aseAddersSum. -/
def aseAnnual (s : CalcState) : ℚ := aseBase s + aseAddersSum s

/-- Subscription monthly: list price times vertical multiplier, plus high-usage
surcharge, times 0.9 on annual billing, then rounded to cents. -/
def subMonthly (s : CalcState) : ℚ :=
  let subList := SUB_BASE s.family
  let m1 := subList * s.verticalKey.multiplier + (if s.isHighUsage then 20 else 0)
  let m2 := if s.annualBilling then m1 * (9/10) else m1
  (jround (m2 * 100) : ℚ) / 100

/-- oneTimeTotal = recalc.price + addersTotal. -/
def oneTimeTotal (s : CalcState) : ℚ := (recalc s).price + addersTotal s

/-- The System Cost input onChange: stores the value and tags lastEdited = cost. -/
def setCostEdit (s : CalcState) (v : ℚ) : CalcState :=
  { s with systemCost := v, lastEdited := .cost }

/-- The Target GM input onChange: stores the value and tags lastEdited = gm. -/
def setGMEdit (s : CalcState) (v : ℚ) : CalcState :=
  { s with targetGM := v, lastEdited := .gm }

/-- The Base System Price input onChange: stores the value and tags lastEdited = price. -/
def setPriceEdit (s : CalcState) (v : ℚ) : CalcState :=
  { s with systemPrice := v, lastEdited := .price }

/-- The family-change React.useEffect combined with setFamily: resets adder
flags and size overrides, restores the family default cost, tags cost. -/
def changeFamily (s : CalcState) (f : Family) : CalcState :=
  { s with
    family := f
    includeFoam := true
    includeBooster := false
    includePool := false
    includeSolar := false
    includeUPS := false
    foamSize := none
    boosterSize := none
    poolSize := none
    systemCost := if f = .MP3 then 50000 else 60000
    lastEdited := .cost }

/-- The initial component state (the useState defaults). -/
def initialState : CalcState where
  family := .MP3
  size := .M
  systemCost := 50000
  targetGM := 1/2
  systemPrice := (jround (50000 / (1 - 1/2)) : ℚ)
  lastEdited := .price
  verticalKey := .res
  isHighUsage := false
  annualBilling := false
  includeFoam := true
  includeBooster := false
  includePool := false
  includeSolar := false
  includeUPS := false
  foamSize := none
  boosterSize := none
  poolSize := none
  adderGM := 1/2
  adderCost := initialAdderCost
  aseAdders := initialASEAdders

/-- The clamp result never exceeds the upper bound. -/
theorem clamp_le (v lo hi : ℚ) (h : lo ≤ hi) : clamp v lo hi ≤ hi :=
  max_le h (min_le_left _ _)

/-- The clamp result is at least the lower bound. -/
theorem le_clamp (v lo hi : ℚ) : lo ≤ clamp v lo hi := le_max_left _ _

/-- Clamping a value already inside the interval is the identity. -/
theorem clamp_eq_of_le {v lo hi : ℚ} (h1 : lo ≤ v) (h2 : v ≤ hi) : clamp v lo hi = v := by
  unfold clamp
  rw [min_eq_right h2, max_eq_right h1]

/-- Clamping to an interval containing g moves a value closer to g. -/
theorem abs_clamp_sub_le (v : ℚ) {lo hi g : ℚ} (h1 : lo ≤ g) (h2 : g ≤ hi) :
    |clamp v lo hi - g| ≤ |v - g| := by
  unfold clamp
  rcases le_total v hi with hv | hv
  · rcases le_total v lo with hl | hl
    · rw [min_eq_right hv, max_eq_left hl, abs_of_nonpos (by linarith),
        abs_of_nonpos (by linarith)]
      linarith
    · rw [min_eq_right hv, max_eq_right hl]
  · rw [min_eq_left hv, max_eq_right (h1.trans h2), abs_of_nonneg (by linarith),
      abs_of_nonneg (by linarith)]
    linarith

/-- jround lands within half a unit of its argument. -/
theorem jround_abs_sub_le (q : ℚ) : |(jround q : ℚ) - q| ≤ 1/2 := by
  rw [jround_eq]
  have h1 : ((⌊q + 1/2⌋ : ℤ) : ℚ) ≤ q + 1/2 := Int.floor_le _
  have h2 : q + 1/2 < ((⌊q + 1/2⌋ : ℤ) : ℚ) + 1 := Int.lt_floor_add_one _
  rw [abs_le]
  constructor <;> linarith

/-- jround of a nonnegative argument is nonnegative. -/
theorem jround_nonneg {q : ℚ} (h : 0 ≤ q) : 0 ≤ (jround q : ℚ) := by
  rw [jround_eq]
  have : (0 : ℤ) ≤ ⌊q + 1/2⌋ := Int.le_floor.mpr (by push_cast; linarith)
  exact_mod_cast this

/-- Evaluation of the clamped default margin. -/
theorem clamp_half : clamp (1/2) (5/100) (9/10) = 1/2 := by
  norm_num [clamp, max_def, min_def]

/-- Evaluation of the default derived system price input. -/
theorem jround_initial_price : jround (50000 / (1 - 1/2)) = 100000 := by
  apply jround_eq_of <;> norm_num

/-- recalc on a cost edit: branch lemma. -/
theorem recalc_cost_edit (s : CalcState) (h : s.lastEdited = .cost) :
    recalc s =
      { price := (jround (s.systemCost / max (1 - clamp s.targetGM (5/100) (9/10)) (1/100)) : ℚ),
        cost := s.systemCost,
        gm := clamp s.targetGM (5/100) (9/10) } := by
  simp [recalc, h]

/-- recalc on a margin edit: branch lemma. -/
theorem recalc_gm_edit (s : CalcState) (h : s.lastEdited = .gm) :
    recalc s =
      { price := (jround (s.systemCost / max (1 - clamp s.targetGM (5/100) (9/10)) (1/100)) : ℚ),
        cost := s.systemCost,
        gm := clamp s.targetGM (5/100) (9/10) } := by
  simp [recalc, h]

/-- recalc on a price edit: branch lemma. -/
theorem recalc_price_edit (s : CalcState) (h : s.lastEdited = .price) :
    recalc s =
      { price := s.systemPrice,
        cost := s.systemCost,
        gm := clamp ((s.systemPrice - s.systemCost) / max s.systemPrice 1) 0 (95/100) } := by
  simp [recalc, h]

/-- The denominator floor never binds once the margin is clamped to at most 0.9. -/
theorem denom_floor_free (t : ℚ) :
    max (1 - clamp t (5/100) (9/10)) (1/100) = 1 - clamp t (5/100) (9/10) := by
  have h : clamp t (5/100) (9/10) ≤ 9/10 := clamp_le _ _ _ (by norm_num)
  rw [max_eq_left]
  linarith

/-- Claim C1: Margin Reconciler contract. For every input triad and lastEdited
tag: on a cost or margin edit the derived margin is clamp(targetGM, 0.05, 0.9),
the derived price is round(cost / max(1 - m, 0.01)) and cost is unchanged; on a
price edit the derived margin is clamp((price - cost) / max(price, 1), 0, 0.95)
and both price and cost are unchanged. -/
theorem recalc_contract (s : CalcState) :
    ((s.lastEdited = .cost ∨ s.lastEdited = .gm) →
      (recalc s).gm = clamp s.targetGM (5/100) (9/10) ∧
      (recalc s).price =
        (jround (s.systemCost / max (1 - clamp s.targetGM (5/100) (9/10)) (1/100)) : ℚ) ∧
      (recalc s).cost = s.systemCost) ∧
    (s.lastEdited = .price →
      (recalc s).gm = clamp ((s.systemPrice - s.systemCost) / max s.systemPrice 1) 0 (95/100) ∧
      (recalc s).price = s.systemPrice ∧
      (recalc s).cost = s.systemCost) := by
  constructor
  · rintro (h | h)
    · rw [recalc_cost_edit s h]
      exact ⟨rfl, rfl, rfl⟩
    · rw [recalc_gm_edit s h]
      exact ⟨rfl, rfl, rfl⟩
  · intro h
    rw [recalc_price_edit s h]
    exact ⟨rfl, rfl, rfl⟩

/-- Witness for C1: both branches of the contract at concrete states. The cost
edit 6000 at default margin 0.5 derives price 12000; the initial state has a
price tag and derives margin 0.5. -/
theorem recalc_contract_witness :
    (recalc (setCostEdit initialState 6000)).price = 12000 ∧
    (recalc initialState).gm = 1/2 := by
  constructor
  · have h := ((recalc_contract (setCostEdit initialState 6000)).1 (Or.inl rfl)).2.1
    rw [h]
    show (jround ((6000 : ℚ) / max (1 - clamp (1/2) (5/100) (9/10)) (1/100)) : ℚ) = 12000
    rw [clamp_half]
    rw [show jround ((6000 : ℚ) / max (1 - 1/2) (1/100)) = 12000 from by
      apply jround_eq_of <;> norm_num [max_def]]
    norm_num
  · have h := ((recalc_contract initialState).2 rfl).1
    rw [h]
    show clamp (((jround ((50000 : ℚ) / (1 - 1/2)) : ℚ) - 50000) /
      max (jround ((50000 : ℚ) / (1 - 1/2)) : ℚ) 1) 0 (95/100) = 1/2
    rw [jround_initial_price]
    norm_num [clamp, max_def, min_def]

/-- Claim C2: Triad consistency invariant. In every derived state tagged cost
or margin, price = round(cost / (1 - m)) holds exactly for the derived clamped
margin m, the 0.01 denominator floor never binding; in a state tagged price,
the margin is (price - cost) / price clamped to [0, 0.95] with the price
floored at 1 in the denominator, and price is taken as given. -/
theorem triad_invariant (s : CalcState) :
    ((s.lastEdited = .cost ∨ s.lastEdited = .gm) →
      (recalc s).price = (jround ((recalc s).cost / (1 - (recalc s).gm)) : ℚ)) ∧
    (s.lastEdited = .price →
      (recalc s).gm =
        clamp (((recalc s).price - (recalc s).cost) / max (recalc s).price 1) 0 (95/100) ∧
      (recalc s).price = s.systemPrice) := by
  constructor
  · intro h
    have hr : recalc s =
        { price := (jround (s.systemCost / max (1 - clamp s.targetGM (5/100) (9/10)) (1/100)) : ℚ),
          cost := s.systemCost,
          gm := clamp s.targetGM (5/100) (9/10) } := by
      rcases h with h | h
      · exact recalc_cost_edit s h
      · exact recalc_gm_edit s h
    rw [hr, denom_floor_free s.targetGM]
  · intro h
    rw [recalc_price_edit s h]
    exact ⟨rfl, rfl⟩

/-- Witness for C2: at the cost edit 6000 with margin 0.5 the invariant gives
price 12000 = round(6000 / 0.5), and the initial price-tagged state satisfies
the price branch. -/
theorem triad_invariant_witness :
    (recalc (setCostEdit initialState 6000)).price =
      (jround ((recalc (setCostEdit initialState 6000)).cost /
        (1 - (recalc (setCostEdit initialState 6000)).gm)) : ℚ) ∧
    (recalc initialState).price = initialState.systemPrice :=
  ⟨(triad_invariant (setCostEdit initialState 6000)).1 (Or.inl rfl),
   ((triad_invariant initialState).2 rfl).2⟩

/-- The state of Scenario 1: cost 6000, margin 0.5, margin just edited. -/
def roundTripState : CalcState :=
  { initialState with systemCost := 6000, targetGM := 1/2, lastEdited := .gm }

/-- Claim C3: Margin round-trip. For any positive cost and margin in
[0.05, 0.9], taking the margin-edit price and recomputing the margin from it
by a price edit reproduces the original margin up to at most one currency
unit of discrepancy in price; concretely cost 6000 and margin 0.5 give price
12000 and recover margin 0.5 exactly. -/
theorem margin_roundtrip :
    (∀ s : CalcState, 0 < s.systemCost → 5/100 ≤ s.targetGM → s.targetGM ≤ 9/10 →
      s.lastEdited = .gm →
      (recalc s).price * |(recalc (setPriceEdit s (recalc s).price)).gm - s.targetGM| ≤ 1) ∧
    (recalc roundTripState).price = 12000 ∧
    (recalc (setPriceEdit roundTripState 12000)).gm = 1/2 := by
  refine ⟨?_, ?_, ?_⟩
  · intro s hc h1 h2 hle
    have hclamp : clamp s.targetGM (5/100) (9/10) = s.targetGM := clamp_eq_of_le h1 h2
    have hprice : (recalc s).price = (jround (s.systemCost / (1 - s.targetGM)) : ℚ) := by
      rw [recalc_gm_edit s hle]
      show (jround (s.systemCost / max (1 - clamp s.targetGM (5/100) (9/10)) (1/100)) : ℚ) = _
      rw [denom_floor_free, hclamp]
    have ht1 : (0:ℚ) < 1 - s.targetGM := by linarith
    have hp0 : 0 < s.systemCost / (1 - s.targetGM) := div_pos hc ht1
    have hpnn : 0 ≤ (recalc s).price := by
      rw [hprice]
      exact jround_nonneg hp0.le
    have hround : |(recalc s).price - s.systemCost / (1 - s.targetGM)| ≤ 1/2 := by
      rw [hprice]
      exact jround_abs_sub_le _
    have hs2 : (recalc (setPriceEdit s (recalc s).price)).gm
        = clamp (((recalc s).price - s.systemCost) / max (recalc s).price 1) 0 (95/100) := by
      rw [recalc_price_edit _ rfl]
      rfl
    rcases le_total ((recalc s).price) 1 with hle1 | hge1
    · have g0 : 0 ≤ (recalc (setPriceEdit s (recalc s).price)).gm := by
        rw [hs2]
        exact le_clamp _ _ _
      have g95 : (recalc (setPriceEdit s (recalc s).price)).gm ≤ 95/100 := by
        rw [hs2]
        exact clamp_le _ _ _ (by norm_num)
      have habs : |(recalc (setPriceEdit s (recalc s).price)).gm - s.targetGM| ≤ 9/10 := by
        rw [abs_le]
        constructor <;> linarith
      calc (recalc s).price * |(recalc (setPriceEdit s (recalc s).price)).gm - s.targetGM|
          ≤ 1 * |(recalc (setPriceEdit s (recalc s).price)).gm - s.targetGM| :=
            mul_le_mul_of_nonneg_right hle1 (abs_nonneg _)
        _ = |(recalc (setPriceEdit s (recalc s).price)).gm - s.targetGM| := one_mul _
        _ ≤ 9/10 := habs
        _ ≤ 1 := by norm_num
    · have hppos : (0:ℚ) < (recalc s).price := lt_of_lt_of_le one_pos hge1
      have hmax : max ((recalc s).price) 1 = (recalc s).price := max_eq_left hge1
      have hcontract : |(recalc (setPriceEdit s (recalc s).price)).gm - s.targetGM|
          ≤ |((recalc s).price - s.systemCost) / (recalc s).price - s.targetGM| := by
        rw [hs2, hmax]
        exact abs_clamp_sub_le _ (by linarith) (by linarith)
      have hne : (recalc s).price ≠ 0 := ne_of_gt hppos
      have hne2 : (1 : ℚ) - s.targetGM ≠ 0 := ne_of_gt ht1
      have hexp : (recalc s).price * (((recalc s).price - s.systemCost) / (recalc s).price
            - s.targetGM)
          = ((recalc s).price - s.systemCost / (1 - s.targetGM)) * (1 - s.targetGM) := by
        field_simp
        ring
      have key : (recalc s).price *
          |((recalc s).price - s.systemCost) / (recalc s).price - s.targetGM| ≤ 1/2 := by
        calc (recalc s).price *
            |((recalc s).price - s.systemCost) / (recalc s).price - s.targetGM|
            = |(recalc s).price * (((recalc s).price - s.systemCost) / (recalc s).price
                - s.targetGM)| := by
              rw [abs_mul, abs_of_pos hppos]
          _ = |(recalc s).price - s.systemCost / (1 - s.targetGM)| * |1 - s.targetGM| := by
              rw [hexp, abs_mul]
          _ = |(recalc s).price - s.systemCost / (1 - s.targetGM)| * (1 - s.targetGM) := by
              rw [abs_of_pos ht1]
          _ ≤ (1/2) * 1 := mul_le_mul hround (by linarith) (by linarith) (by norm_num)
          _ = 1/2 := by norm_num
      calc (recalc s).price * |(recalc (setPriceEdit s (recalc s).price)).gm - s.targetGM|
          ≤ (recalc s).price *
            |((recalc s).price - s.systemCost) / (recalc s).price - s.targetGM| :=
            mul_le_mul_of_nonneg_left hcontract hppos.le
        _ ≤ 1/2 := key
        _ ≤ 1 := by norm_num
  · rw [recalc_gm_edit roundTripState rfl]
    show (jround ((6000 : ℚ) / max (1 - clamp (1/2) (5/100) (9/10)) (1/100)) : ℚ) = 12000
    rw [clamp_half]
    rw [show jround ((6000 : ℚ) / max (1 - 1/2) (1/100)) = 12000 from by
      apply jround_eq_of <;> norm_num [max_def]]
    norm_num
  · rw [recalc_price_edit _ rfl]
    show clamp (((12000 : ℚ) - 6000) / max 12000 1) 0 (95/100) = 1/2
    norm_num [clamp, max_def, min_def]

/-- Witness for C3: the general bound applied at Scenario 1. -/
theorem margin_roundtrip_witness :
    (recalc roundTripState).price *
      |(recalc (setPriceEdit roundTripState (recalc roundTripState).price)).gm -
        roundTripState.targetGM| ≤ 1 :=
  margin_roundtrip.1 roundTripState (by norm_num [roundTripState, initialState])
    (by norm_num [roundTripState, initialState])
    (by norm_num [roundTripState, initialState]) rfl

/-- The subscription formula exactly as the claim words it: the rounding to
cents applied once, but placed before the annual-billing 0.9 factor. -/
def subMonthlyClaimFormula (s : CalcState) : ℚ :=
  ((jround ((SUB_BASE s.family * s.verticalKey.multiplier +
    (if s.isHighUsage then 20 else 0)) * 100) : ℚ) / 100) *
  (if s.annualBilling then 9/10 else 1)

/-- C and I vertical with annual billing: the state where the claim formula
and the code disagree. -/
def subCexState : CalcState := { initialState with verticalKey := .ci, annualBilling := true }

/-- Counterexample for C4: at the C and I vertical (multiplier 0.95) with
annual billing, the code rounds after the 0.9 factor and yields 76.10, while
the formula written in the claim yields 76.095; they differ. -/
theorem subMonthly_counterexample :
    subMonthly subCexState = 761/10 ∧
    subMonthlyClaimFormula subCexState = 15219/200 ∧
    subMonthly subCexState ≠ subMonthlyClaimFormula subCexState := by
  have h1 : subMonthly subCexState = 761/10 := by
    norm_num [subMonthly, subCexState, initialState, SUB_BASE, VKey.multiplier]
    rw [show jround ((15219 : ℚ)/2) = 7610 from by apply jround_eq_of <;> norm_num]
    norm_num
  have h2 : subMonthlyClaimFormula subCexState = 15219/200 := by
    norm_num [subMonthlyClaimFormula, subCexState, initialState, SUB_BASE, VKey.multiplier]
    rw [show jround ((8455 : ℚ)) = 8455 from by apply jround_eq_of <;> norm_num]
    norm_num
  refine ⟨h1, h2, ?_⟩
  rw [h1, h2]
  norm_num

/-- Claim C4 as amended: subscriptionMonthly is round2 applied exactly once,
after all multiplications and additions including the 0.9 annual-billing
factor; FamilyA base 89, multiplier 1.0 and annual billing yield 80.10. -/
theorem subMonthly_amended :
    (∀ s : CalcState, subMonthly s =
      (jround (((SUB_BASE s.family * s.verticalKey.multiplier +
        (if s.isHighUsage then 20 else 0)) *
        (if s.annualBilling then 9/10 else 1)) * 100) : ℚ) / 100) ∧
    subMonthly { initialState with annualBilling := true } = 801/10 := by
  constructor
  · intro s
    unfold subMonthly
    cases hb : s.annualBilling <;> simp
  · norm_num [subMonthly, initialState, SUB_BASE, VKey.multiplier]
    rw [show jround (8010 : ℚ) = 8010 from by apply jround_eq_of <;> norm_num]
    norm_num

/-- Claim C5: Family-switch partial reset. The change-family step re-enables
Foam only, clears all size overrides, resets system cost to the family fixed
default (50000 for MP3, 60000 for LV2), tags lastEdited = cost so the derived
price is recomputed from the new default cost and the existing clamped margin,
and leaves margin, system size, subscription settings, cost tables and ASE
tables unchanged. -/
theorem family_switch_reset (s : CalcState) (f : Family) :
    (changeFamily s f).includeFoam = true ∧
    (changeFamily s f).includeBooster = false ∧
    (changeFamily s f).includePool = false ∧
    (changeFamily s f).includeSolar = false ∧
    (changeFamily s f).includeUPS = false ∧
    (changeFamily s f).foamSize = none ∧
    (changeFamily s f).boosterSize = none ∧
    (changeFamily s f).poolSize = none ∧
    (changeFamily s f).systemCost = (if f = .MP3 then 50000 else 60000) ∧
    (changeFamily s f).lastEdited = .cost ∧
    (changeFamily s f).family = f ∧
    (changeFamily s f).targetGM = s.targetGM ∧
    (changeFamily s f).size = s.size ∧
    (changeFamily s f).verticalKey = s.verticalKey ∧
    (changeFamily s f).isHighUsage = s.isHighUsage ∧
    (changeFamily s f).annualBilling = s.annualBilling ∧
    (changeFamily s f).adderGM = s.adderGM ∧
    (changeFamily s f).adderCost = s.adderCost ∧
    (changeFamily s f).aseAdders = s.aseAdders ∧
    (recalc (changeFamily s f)).cost = (if f = .MP3 then 50000 else 60000) ∧
    (recalc (changeFamily s f)).gm = clamp s.targetGM (5/100) (9/10) ∧
    (recalc (changeFamily s f)).price =
      (jround ((if f = .MP3 then (50000 : ℚ) else 60000) /
        max (1 - clamp s.targetGM (5/100) (9/10)) (1/100)) : ℚ) := by
  refine ⟨rfl, rfl, rfl, rfl, rfl, rfl, rfl, rfl, rfl, rfl, rfl, rfl, rfl, rfl, rfl, rfl,
    rfl, rfl, rfl, ?_, ?_, ?_⟩
  · rw [recalc_cost_edit _ rfl]
    rfl
  · rw [recalc_cost_edit _ rfl]
    rfl
  · rw [recalc_cost_edit _ rfl]
    rfl

/-- Claim C6: ASE annual total equals the base ASE amount for (family, size)
plus the increments at (family, size) of exactly the enabled add-ons among
foam, booster, pool, solar; the UPS flag never enters; the default state
(FamilyA, size M, base 895, Foam 119, only Foam enabled) yields 1014. -/
theorem aseAnnual_spec :
    (∀ s : CalcState, aseAnnual s =
      ASE_BASE s.family s.size +
      ((if s.includeFoam then (s.aseAdders s.family s.size).foam else 0) +
       (if s.includeBooster then (s.aseAdders s.family s.size).booster else 0) +
       (if s.includePool then (s.aseAdders s.family s.size).pool else 0) +
       (if s.includeSolar then (s.aseAdders s.family s.size).solar else 0))) ∧
    (∀ (s : CalcState) (b : Bool), aseAnnual { s with includeUPS := b } = aseAnnual s) ∧
    aseAnnual initialState = 1014 := by
  refine ⟨fun s => rfl, fun s b => rfl, ?_⟩
  norm_num [aseAnnual, aseBase, aseAddersSum, initialState, ASE_BASE, initialASEAdders]

/-- The default state with the editable UPS flat cost set to 0. -/
def upsZeroState : CalcState :=
  { initialState with adderCost := { initialAdderCost with upsFlat := 0 } }

/-- Evaluation of priceFromGM at the default foam cost and margin 0.5. -/
theorem priceFromGM_foam_default : priceFromGM 1000 (1/2) = 2000 := by
  unfold priceFromGM
  rw [show max (1 - 1/2 : ℚ) (1/100) = 1/2 from by norm_num [max_def]]
  rw [show jround ((1000 : ℚ) / (1/2)) = 2000 from by apply jround_eq_of <;> norm_num]
  norm_num

/-- Evaluation of priceFromGM at a zero cost. -/
theorem priceFromGM_zero : priceFromGM 0 (1/2) = 0 := by
  unfold priceFromGM
  rw [show max (1 - 1/2 : ℚ) (1/100) = 1/2 from by norm_num [max_def]]
  rw [show jround ((0 : ℚ) / (1/2)) = 0 from by apply jround_eq_of <;> norm_num]
  norm_num

/-- Evaluation of priceFromGM at the default UPS flat cost and margin 0.5. -/
theorem priceFromGM_ups_default : priceFromGM 250 (1/2) = 500 := by
  unfold priceFromGM
  rw [show max (1 - 1/2 : ℚ) (1/100) = 1/2 from by norm_num [max_def]]
  rw [show jround ((250 : ℚ) / (1/2)) = 500 from by apply jround_eq_of <;> norm_num]
  norm_num

/-- Counterexample for C7: with the editable UPS flat cost set to 0, enabling
UPS leaves addersTotal unchanged, so the toggle does not always change it. -/
theorem ups_toggle_counterexample :
    addersTotal { upsZeroState with includeUPS := true } = addersTotal upsZeroState := by
  show foamPrice _ + boosterPrice _ + poolPrice _ + solarPrice _ + upsPrice _
      = foamPrice _ + boosterPrice _ + poolPrice _ + solarPrice _ + upsPrice _
  simp only [foamPrice, boosterPrice, poolPrice, solarPrice, upsPrice, foamCost, boosterCost,
    poolCost, solarCost, upsCost, upsZeroState, initialState, initialAdderCost,
    foamActiveSize, FoamSize.ofSize, Option.getD]
  norm_num [priceFromGM_zero]

/-- Claim C7 as amended: toggling UPS from disabled to enabled never changes
aseAnnual and changes addersTotal by exactly the UPS price
round(upsFlat / max(1 - adderGM, 0.01)) - a real change at the default tables,
but no change when that price is zero (editable UPS flat cost 0). -/
theorem ups_toggle_frame :
    (∀ s : CalcState,
      aseAnnual { s with includeUPS := true } = aseAnnual { s with includeUPS := false }) ∧
    (∀ s : CalcState,
      addersTotal { s with includeUPS := true }
        = addersTotal { s with includeUPS := false }
          + priceFromGM s.adderCost.upsFlat s.adderGM) ∧
    addersTotal { initialState with includeUPS := true } ≠ addersTotal initialState := by
  refine ⟨fun s => rfl, fun s => ?_, ?_⟩
  · show foamPrice _ + boosterPrice _ + poolPrice _ + solarPrice _ + upsPrice _
        = foamPrice _ + boosterPrice _ + poolPrice _ + solarPrice _ + upsPrice _
          + priceFromGM s.adderCost.upsFlat s.adderGM
    simp only [foamPrice, boosterPrice, poolPrice, solarPrice, upsPrice, foamCost, boosterCost,
      poolCost, solarCost, upsCost, foamActiveSize, boosterActiveSize, poolActiveSize]
    simp
  · show foamPrice _ + boosterPrice _ + poolPrice _ + solarPrice _ + upsPrice _
        ≠ foamPrice _ + boosterPrice _ + poolPrice _ + solarPrice _ + upsPrice _
    simp only [foamPrice, boosterPrice, poolPrice, solarPrice, upsPrice, foamCost, boosterCost,
      poolCost, solarCost, upsCost, initialState, initialAdderCost, foamActiveSize,
      FoamSize.ofSize]
    norm_num [priceFromGM_ups_default]

/-- A raw string typed into a numeric field, abstracted by its parse status:
the empty string, a numeric literal with a given value, or junk text that is
not a number. -/
inductive InputStr
  | emptyStr
  | numLit (q : ℚ)
  | junk
  deriving DecidableEq

/-- JS Number conversion: the empty string converts to 0, a numeric literal
to its value, junk text to NaN (none). -/
def jsNumber : InputStr → Option ℚ
  | .emptyStr => some 0
  | .numLit q => some q
  | .junk => none

/-- The JS expression v or-else 0 inside the onChange handlers: the string
itself when truthy (non-empty), else the number 0. -/
def jsOrZero : InputStr → InputStr
  | .emptyStr => .numLit 0
  | s => s

/-- The numeric-field onChange handler expression Number(v or-else 0). -/
def handleNumericInput (v : InputStr) : Option ℚ := jsNumber (jsOrZero v)

/-- Modelled from the spec: every numeric field in the source is an HTML
input of type number, whose value IDL attribute exposes the empty string
whenever the typed content does not parse as a number (platform sanitization,
not part of src/). -/
def numberInputSurface : InputStr → InputStr
  | .junk => .emptyStr
  | s => s

/-- Claim C8: Numeric parse default. For every numeric input field, an input
string that fails to parse as a number is stored as the numeric value 0, and
the handler always stores an actual number (no NaN, no exception). -/
theorem numeric_parse_default :
    (∀ v : InputStr, jsNumber v = none ∨ v = .emptyStr →
      handleNumericInput (numberInputSurface v) = some 0) ∧
    (∀ v : InputStr, (handleNumericInput (numberInputSurface v)).isSome = true) := by
  constructor
  · intro v h
    cases v with
    | emptyStr => rfl
    | numLit q =>
      rcases h with h | h
      · exact absurd h (by simp [jsNumber])
      · exact absurd h (by simp)
    | junk => rfl
  · intro v
    cases v <;> rfl

/-- Witness for C8: junk input is stored as 0. -/
theorem numeric_parse_default_witness :
    handleNumericInput (numberInputSurface .junk) = some 0 :=
  numeric_parse_default.1 .junk (Or.inl rfl)

/-- Claim C9: a direct price edit persists only systemPrice and the tag; the
margin it displays is never written back, so a following cost edit recomputes
the price from the clamped stored targetGM (the last explicitly entered
margin), and the displayed margin can revert, as at price 80000 over the
default state. -/
theorem price_edit_not_persisted :
    (∀ (s : CalcState) (p c : ℚ),
      (setPriceEdit s p).targetGM = s.targetGM ∧
      (setPriceEdit s p).systemCost = s.systemCost ∧
      (setPriceEdit s p).systemPrice = p ∧
      (setPriceEdit s p).lastEdited = .price ∧
      (recalc (setCostEdit (setPriceEdit s p) c)).gm = clamp s.targetGM (5/100) (9/10) ∧
      (recalc (setCostEdit (setPriceEdit s p) c)).price =
        (jround (c / max (1 - clamp s.targetGM (5/100) (9/10)) (1/100)) : ℚ)) ∧
    (recalc (setCostEdit (setPriceEdit initialState 80000) 50000)).gm ≠
      (recalc (setPriceEdit initialState 80000)).gm := by
  constructor
  · intro s p c
    refine ⟨rfl, rfl, rfl, rfl, ?_, ?_⟩
    · rw [recalc_cost_edit _ rfl]
      rfl
    · rw [recalc_cost_edit _ rfl]
      rfl
  · rw [recalc_cost_edit _ rfl, recalc_price_edit _ rfl]
    show clamp (1/2) (5/100) (9/10) ≠
      clamp (((80000 : ℚ) - 50000) / max 80000 1) 0 (95/100)
    rw [clamp_half]
    norm_num [clamp, max_def, min_def]

namespace Variant

/-!
Embedding of the calculator variant found in src/unnamed/part_001. Its
reference tables and derivation pipeline are embedded afresh from that file
over the same raw state type, so that the two implementations can be
compared pointwise.
-/

/-- ASE_BASE table of the variant file. -/
def ASE_BASE : Family → Size → ℚ
  | .MP3, .S => 795
  | .MP3, .M => 895
  | .MP3, .L => 995
  | .LV2, .S => 995
  | .LV2, .M => 1095
  | .LV2, .L => 1195

/-- SUB_BASE table of the variant file. -/
def SUB_BASE : Family → ℚ
  | .MP3 => 89
  | .LV2 => 129

/-- Multiplier column of the VERTICALS array of the variant file. -/
def multiplier : VKey → ℚ
  | .res => 1
  | .prod => 9/10
  | .ci => 95/100

/-- The recalc useMemo of the variant file. -/
def recalc (s : CalcState) : Triad :=
  let price := s.systemPrice
  let cost := s.systemCost
  let gm := clamp s.targetGM (5/100) (9/10)
  match s.lastEdited with
  | .price => { price := price, cost := cost,
                gm := clamp ((price - cost) / max price 1) 0 (95/100) }
  | .gm => { price := (jround (cost / max (1 - gm) (1/100)) : ℚ), cost := cost, gm := gm }
  | .cost => { price := (jround (cost / max (1 - gm) (1/100)) : ℚ), cost := cost, gm := gm }

/-- priceFromGM helper of the variant file. -/
def priceFromGM (cost gm : ℚ) : ℚ := (jround (cost / max (1 - gm) (1/100)) : ℚ)

/-- foamActiveSize of the variant file. -/
def foamActiveSize (s : CalcState) : FoamSize := s.foamSize.getD (FoamSize.ofSize s.size)

/-- boosterActiveSize of the variant file. -/
def boosterActiveSize (s : CalcState) : Size := s.boosterSize.getD s.size

/-- poolActiveSize of the variant file. -/
def poolActiveSize (s : CalcState) : Size := s.poolSize.getD s.size

/-- foamCost of the variant file. -/
def foamCost (s : CalcState) : ℚ :=
  if s.includeFoam then s.adderCost.foam (foamActiveSize s) else 0

/-- boosterCost of the variant file. -/
def boosterCost (s : CalcState) : ℚ :=
  if s.includeBooster then s.adderCost.booster s.family (boosterActiveSize s) else 0

/-- poolCost of the variant file. -/
def poolCost (s : CalcState) : ℚ :=
  if s.includePool then s.adderCost.pool s.family (poolActiveSize s) else 0

/-- solarCost of the variant file. -/
def solarCost (s : CalcState) : ℚ :=
  if s.includeSolar then s.adderCost.solarFlat else 0

/-- upsCost of the variant file. -/
def upsCost (s : CalcState) : ℚ :=
  if s.includeUPS then s.adderCost.upsFlat else 0

/-- foamPrice of the variant file. -/
def foamPrice (s : CalcState) : ℚ :=
  if s.includeFoam then priceFromGM (foamCost s) s.adderGM else 0

/-- boosterPrice of the variant file. -/
def boosterPrice (s : CalcState) : ℚ :=
  if s.includeBooster then priceFromGM (boosterCost s) s.adderGM else 0

/-- poolPrice of the variant file. -/
def poolPrice (s : CalcState) : ℚ :=
  if s.includePool then priceFromGM (poolCost s) s.adderGM else 0

/-- solarPrice of the variant file. -/
def solarPrice (s : CalcState) : ℚ :=
  if s.includeSolar then priceFromGM (solarCost s) s.adderGM else 0

/-- upsPrice of the variant file. -/
def upsPrice (s : CalcState) : ℚ :=
  if s.includeUPS then priceFromGM (upsCost s) s.adderGM else 0

/-- addersTotal of the variant file. -/
def addersTotal (s : CalcState) : ℚ :=
  foamPrice s + boosterPrice s + poolPrice s + solarPrice s + upsPrice s

/-- aseAnnual of the variant file. -/
def aseAnnual (s : CalcState) : ℚ :=
  ASE_BASE s.family s.size +
  ((if s.includeFoam then (s.aseAdders s.family s.size).foam else 0) +
   (if s.includeBooster then (s.aseAdders s.family s.size).booster else 0) +
   (if s.includePool then (s.aseAdders s.family s.size).pool else 0) +
   (if s.includeSolar then (s.aseAdders s.family s.size).solar else 0))

/-- subMonthly of the variant file. -/
def subMonthly (s : CalcState) : ℚ :=
  let subList := SUB_BASE s.family
  let m1 := subList * multiplier s.verticalKey + (if s.isHighUsage then 20 else 0)
  let m2 := if s.annualBilling then m1 * (9/10) else m1
  (jround (m2 * 100) : ℚ) / 100

/-- oneTimeTotal of the variant file. -/
def oneTimeTotal (s : CalcState) : ℚ := (recalc s).price + addersTotal s

end Variant

/-- Claim C10: the two calculator implementations in the repository compute
identical derived values on every identical input state: the reconciled
triad, the five add-on costs and prices, addersTotal, aseAnnual, subMonthly,
and oneTimeTotal. -/
theorem variant_equivalence (s : CalcState) :
    recalc s = Variant.recalc s ∧
    foamCost s = Variant.foamCost s ∧
    boosterCost s = Variant.boosterCost s ∧
    poolCost s = Variant.poolCost s ∧
    solarCost s = Variant.solarCost s ∧
    upsCost s = Variant.upsCost s ∧
    foamPrice s = Variant.foamPrice s ∧
    boosterPrice s = Variant.boosterPrice s ∧
    poolPrice s = Variant.poolPrice s ∧
    solarPrice s = Variant.solarPrice s ∧
    upsPrice s = Variant.upsPrice s ∧
    addersTotal s = Variant.addersTotal s ∧
    aseAnnual s = Variant.aseAnnual s ∧
    subMonthly s = Variant.subMonthly s ∧
    oneTimeTotal s = Variant.oneTimeTotal s := by
  refine ⟨rfl, rfl, rfl, rfl, rfl, rfl, rfl, rfl, rfl, rfl, rfl, rfl, ?_, ?_, rfl⟩
  · show aseBase s + aseAddersSum s = _
    cases s.family <;> cases s.size <;> rfl
  · show subMonthly s = _
    cases s.family <;> cases s.verticalKey <;> rfl

end Frontline
